import Mathlib

/-!
Shallow embedding of `src/daemon/daemon-posix.cc` (transmission daemon,
POSIX lifecycle orchestrator) and proofs about its signal-dispatch and
daemonization logic.

The embedding models:
* the signal constants used by the file (`SIGHUP`, `SIGINT`, `SIGTERM`,
  with their standard Linux numeric values);
* `handle_signal`, `send_signal_to_pipe`, `signal_handler_thread_main`
  (the dispatch thread's read loop) as functions from the sequence of
  identifiers read from the pipe to the trace of callback invocations;
* `dtr_daemon` together with its helpers (`create_signal_pipe`,
  `create_signal_handler_thread`, `destroy_signal_handler_thread`,
  `setup_signal_handler`) as an explicit state-passing function over a
  `DaemonState` record, with the outcome of each OS primitive supplied
  by an `Env` oracle.
-/

/-- Standard numeric value of `SIGHUP`. -/
def SIGHUP : Int := 1

/-- Standard numeric value of `SIGINT`. -/
def SIGINT : Int := 2

/-- Standard numeric value of `SIGTERM`. -/
def SIGTERM : Int := 15

/-- Callback invocations observable on the process-wide callback table
(`callbacks->on_reconfigure`, `callbacks->on_stop`, `cb->on_start`),
each carrying the stored context argument (`callback_arg` / `cb_arg`). -/
inductive CbEvent : Type where
  | on_reconfigure (ctx : Nat)
  | on_stop (ctx : Nat)
  | on_start (ctx : Nat)
  deriving DecidableEq, Repr

/-- The C `assert` macro: the process aborts (assertion failure) iff the
condition evaluates to false/zero.  Returns `true` iff it fails. -/
def c_assert_fails (cond : Bool) : Bool := !cond

/-- In `assert("Unexpected signal")` the condition is a C string literal,
which decays to a non-null pointer and is therefore truthy. -/
def string_literal_condition : Bool := true

/-- Outcome of one `handle_signal` call: the callbacks invoked, and
whether the process aborted (via a failing `assert`). -/
structure HandleOutcome : Type where
  calls : List CbEvent
  aborted : Bool
  deriving DecidableEq, Repr

/-- Embedding of `handle_signal` (daemon-posix.cc lines 44-60): switch on
the signal number; `SIGHUP` invokes `on_reconfigure(callback_arg)`,
`SIGINT` and `SIGTERM` (fallthrough) invoke `on_stop(callback_arg)`, and
the default branch executes `assert("Unexpected signal")`. -/
def handle_signal (ctx : Nat) (sig : Int) : HandleOutcome :=
  if sig = SIGHUP then
    { calls := [CbEvent.on_reconfigure ctx], aborted := false }
  else if sig = SIGINT ∨ sig = SIGTERM then
    { calls := [CbEvent.on_stop ctx], aborted := false }
  else
    { calls := [], aborted := c_assert_fails string_literal_condition }

/-- Environment of one `send_signal_to_pipe` call: the ambient `errno`
on entry, whether the `write` into `signal_pipe[1]` succeeds, and the
`errno` value left behind by the `write` call itself. -/
structure WriteEnv : Type where
  errno_before : Int
  write_ok : Bool
  errno_after_write : Int
  deriving DecidableEq, Repr

/-- Outcome of one `send_signal_to_pipe` call: whether the process
aborted, the ambient `errno` observed afterwards (meaningful only when
the call returns normally), and the identifier pushed into the pipe. -/
structure SendOutcome : Type where
  aborted : Bool
  errno_after : Int
  pushed : Option Int
  deriving DecidableEq, Repr

/-- Embedding of `send_signal_to_pipe` (daemon-posix.cc lines 62-72):
save `errno`, write the signal number into `signal_pipe[1]`, `abort()`
on write failure, restore `errno` otherwise. -/
def send_signal_to_pipe (sig : Int) (env : WriteEnv) : SendOutcome :=
  let old_errno := env.errno_before
  if !env.write_ok then
    { aborted := true, errno_after := env.errno_after_write, pushed := none }
  else
    { aborted := false, errno_after := old_errno, pushed := some sig }

/-- Outcome of the dispatch thread's read loop: the trace of callback
invocations, and whether the process aborted inside `handle_signal`. -/
structure LoopOutcome : Type where
  calls : List CbEvent
  aborted : Bool
  deriving DecidableEq, Repr

/-- Embedding of `signal_handler_thread_main` (daemon-posix.cc lines
74-84): repeatedly read one `int` from `signal_pipe[0]`; the loop
continues while the read yields a full identifier and it is nonzero,
dispatching each identifier through `handle_signal`.  The input list is
the sequence of identifiers successfully read; its end models a short
read / closed pipe. -/
def signal_handler_thread_main (ctx : Nat) : List Int → LoopOutcome
  | [] => { calls := [], aborted := false }
  | sig :: rest =>
    if sig = 0 then
      { calls := [], aborted := false }
    else
      let h := handle_signal ctx sig
      if h.aborted then
        { calls := h.calls, aborted := true }
      else
        let r := signal_handler_thread_main ctx rest
        { calls := h.calls ++ r.calls, aborted := r.aborted }

/-- Result of the `fork()` call on the manual daemonization fallback
path. -/
inductive ForkResult : Type where
  | fail
  | child
  | parent
  deriving DecidableEq, Repr

/-- Oracle for the outcomes of the OS primitives invoked by `dtr_daemon`
and its helpers, plus the compile-time configuration.  `have_daemon`
models `defined(HAVE_DAEMON) && !defined(__APPLE__) && !defined(__UCLIBC__)`. -/
structure Env : Type where
  have_daemon : Bool
  daemon_ok : Bool
  daemon_errno : Int
  fork_result : ForkResult
  fork_errno : Int
  setsid_ok : Bool
  setsid_errno : Int
  open_null_ok : Bool
  pipe_ok : Bool
  pipe_errno : Int
  pthread_create_ok : Bool
  pthread_create_errno : Int
  signal_hup_ok : Bool
  signal_int_ok : Bool
  signal_term_ok : Bool
  signal_errno : Int
  start_ret : Int

/-- Observable process state threaded through `dtr_daemon`: the
process-wide callback globals (`callbacks`, `callback_arg`, modelled by
identifiers), the caller's `*exit_code` and `*error` out-parameters, the
signal pipe, the dispatch thread, the installed signal handlers (in
installation order), the session/stdio/cwd effects of daemonization, and
whether `on_start` was invoked. -/
structure DaemonState : Type where
  callbacks : Option Nat
  callback_arg : Option Nat
  exit_code : Int
  error : Option Int
  pipe_open : Bool
  thread_running : Bool
  handlers : List Int
  new_session : Bool
  stdio_null : Bool
  cwd_changed : Bool
  start_invoked : Bool
  sentinel_sent : Bool
  thread_joined : Bool
  deriving DecidableEq, Repr

/-- A process state in which no daemon resources exist yet. -/
def cleanState : DaemonState :=
  { callbacks := none
    callback_arg := none
    exit_code := 0
    error := none
    pipe_open := false
    thread_running := false
    handlers := []
    new_session := false
    stdio_null := false
    cwd_changed := false
    start_invoked := false
    sentinel_sent := false
    thread_joined := false }

/-- Embedding of `set_system_error` (daemon-posix.cc lines 35-38):
populate `*error` with the OS error code (and its message). -/
def set_system_error (code : Int) (s : DaemonState) : DaemonState :=
  { s with error := some code }

/-- Embedding of `create_signal_pipe` (daemon-posix.cc lines 86-95). -/
def create_signal_pipe (env : Env) (s : DaemonState) : Bool × DaemonState :=
  if !env.pipe_ok then
    (false, set_system_error env.pipe_errno s)
  else
    (true, { s with pipe_open := true })

/-- Embedding of `destroy_signal_pipe` (daemon-posix.cc lines 97-101). -/
def destroy_signal_pipe (s : DaemonState) : DaemonState :=
  { s with pipe_open := false }

/-- Embedding of `create_signal_handler_thread` (daemon-posix.cc lines
103-118): create the pipe, then `pthread_create` the dispatch thread,
destroying the pipe again if thread creation fails. -/
def create_signal_handler_thread (env : Env) (s : DaemonState) : Bool × DaemonState :=
  let r := create_signal_pipe env s
  if !r.1 then
    (false, r.2)
  else if !env.pthread_create_ok then
    (false, destroy_signal_pipe (set_system_error env.pthread_create_errno r.2))
  else
    (true, { r.2 with thread_running := true })

/-- Embedding of `destroy_signal_handler_thread` (daemon-posix.cc lines
120-126): send the sentinel `0` into the pipe, `pthread_join` the
dispatch thread, destroy the pipe. -/
def destroy_signal_handler_thread (s : DaemonState) : DaemonState :=
  destroy_signal_pipe
    { s with sentinel_sent := true, thread_running := false, thread_joined := true }

/-- Per-signal success of the `signal()` registration primitive. -/
def signal_ok (env : Env) (sig : Int) : Bool :=
  if sig = SIGHUP then env.signal_hup_ok
  else if sig = SIGINT then env.signal_int_ok
  else if sig = SIGTERM then env.signal_term_ok
  else false

/-- Embedding of `setup_signal_handler` (daemon-posix.cc lines 128-139):
install `send_signal_to_pipe` as the handler for `sig` via `signal()`. -/
def setup_signal_handler (sig : Int) (env : Env) (s : DaemonState) : Bool × DaemonState :=
  if !(signal_ok env sig) then
    (false, set_system_error env.signal_errno s)
  else
    (true, { s with handlers := s.handlers ++ [sig] })

/-- Embedding of the tail of `dtr_daemon` after the daemonization block
(daemon-posix.cc lines 206-223): create the pipe+thread, install the
three handlers with C short-circuit evaluation, tearing everything down
on failure; otherwise run `cb->on_start(cb_arg, foreground)` into
`*exit_code` and tear down on return. -/
def dtr_daemon_after_detach (env : Env) (s : DaemonState) : Bool × DaemonState :=
  let r := create_signal_handler_thread env s
  if !r.1 then
    (false, r.2)
  else
    let r1 := setup_signal_handler SIGINT env r.2
    if !r1.1 then
      (false, destroy_signal_handler_thread r1.2)
    else
      let r2 := setup_signal_handler SIGTERM env r1.2
      if !r2.1 then
        (false, destroy_signal_handler_thread r2.2)
      else
        let r3 := setup_signal_handler SIGHUP env r2.2
        if !r3.1 then
          (false, destroy_signal_handler_thread r3.2)
        else
          let s4 := { r3.2 with start_invoked := true, exit_code := env.start_ret }
          (true, destroy_signal_handler_thread s4)

/-- Embedding of `dtr_daemon` (daemon-posix.cc lines 145-224): record the
callback table and context in the process-wide globals, set
`*exit_code = 1`, optionally daemonize (native `daemon()` when
`HAVE_DAEMON`, otherwise the manual fork/setsid/null-stdio fallback with
the `chdir` block commented out), then hand off to the pipe/thread/handler
setup and `on_start`. -/
def dtr_daemon (env : Env) (cb cb_arg : Nat) (foreground : Bool) (s0 : DaemonState) :
    Bool × DaemonState :=
  let s := { s0 with
    callbacks := some cb
    callback_arg := some cb_arg
    exit_code := 1 }
  if foreground then
    dtr_daemon_after_detach env s
  else if env.have_daemon then
    if !env.daemon_ok then
      (false, set_system_error env.daemon_errno s)
    else
      dtr_daemon_after_detach env s
  else
    match env.fork_result with
    | ForkResult.fail => (false, set_system_error env.fork_errno s)
    | ForkResult.parent => (true, { s with exit_code := 0 })
    | ForkResult.child =>
      if !env.setsid_ok then
        (false, set_system_error env.setsid_errno s)
      else
        let s1 := { s with new_session := true }
        let s2 := if env.open_null_ok then { s1 with stdio_null := true } else s1
        dtr_daemon_after_detach env s2

/-- A concrete oracle on which every OS primitive succeeds (manual-fork
configuration, landing in the child). -/
def envAllOk : Env :=
  { have_daemon := false
    daemon_ok := true
    daemon_errno := 0
    fork_result := ForkResult.child
    fork_errno := 0
    setsid_ok := true
    setsid_errno := 0
    open_null_ok := true
    pipe_ok := true
    pipe_errno := 0
    pthread_create_ok := true
    pthread_create_errno := 0
    signal_hup_ok := true
    signal_int_ok := true
    signal_term_ok := true
    signal_errno := 22
    start_ret := 7 }

/-- A concrete oracle whose `fork()` lands in the parent. -/
def envParent : Env := { envAllOk with fork_result := ForkResult.parent }

/-- A concrete oracle on which `pipe()` fails with `EMFILE` (24). -/
def envPipeFail : Env := { envAllOk with pipe_ok := false, pipe_errno := 24 }

/-- A concrete oracle on which `signal(SIGTERM, ...)` fails after
`signal(SIGINT, ...)` has already succeeded. -/
def envSigTermFail : Env := { envAllOk with signal_term_ok := false }

/-! ## Helper lemmas about `dtr_daemon_after_detach` -/

/-- `dtr_daemon_after_detach` never touches the process-wide callback
globals nor the daemonization effects (session, stdio, cwd). -/
theorem after_detach_frame (env : Env) (s : DaemonState) :
    (dtr_daemon_after_detach env s).2.new_session = s.new_session ∧
    (dtr_daemon_after_detach env s).2.stdio_null = s.stdio_null ∧
    (dtr_daemon_after_detach env s).2.cwd_changed = s.cwd_changed ∧
    (dtr_daemon_after_detach env s).2.callbacks = s.callbacks ∧
    (dtr_daemon_after_detach env s).2.callback_arg = s.callback_arg := by
  cases hp : env.pipe_ok <;> cases ht : env.pthread_create_ok <;>
    cases hi : env.signal_int_ok <;> cases hte : env.signal_term_ok <;>
    cases hh : env.signal_hup_ok <;>
    simp [dtr_daemon_after_detach, create_signal_handler_thread, create_signal_pipe,
      destroy_signal_pipe, destroy_signal_handler_thread, setup_signal_handler,
      set_system_error, signal_ok, SIGHUP, SIGINT, SIGTERM, hp, ht, hi, hte, hh]

/-- `dtr_daemon_after_detach` writes `on_start`'s return value into the
exit code exactly when it succeeds, and leaves it alone otherwise. -/
theorem after_detach_exit_code (env : Env) (s : DaemonState) :
    (dtr_daemon_after_detach env s).2.exit_code =
      (if (dtr_daemon_after_detach env s).1 = true then env.start_ret else s.exit_code) := by
  cases hp : env.pipe_ok <;> cases ht : env.pthread_create_ok <;>
    cases hi : env.signal_int_ok <;> cases hte : env.signal_term_ok <;>
    cases hh : env.signal_hup_ok <;>
    simp [dtr_daemon_after_detach, create_signal_handler_thread, create_signal_pipe,
      destroy_signal_pipe, destroy_signal_handler_thread, setup_signal_handler,
      set_system_error, signal_ok, SIGHUP, SIGINT, SIGTERM, hp, ht, hi, hte, hh]

/-- When any of the pipe-creation, thread-creation or handler-registration
primitives fails, `dtr_daemon_after_detach` fails: it reports an error,
never invokes `on_start`, and ends with the pipe closed and the thread
stopped (sentinel sent and thread joined whenever it was created). -/
theorem after_detach_failure (env : Env) (s : DaemonState)
    (hpipe : s.pipe_open = false) (hthr : s.thread_running = false)
    (hst : s.start_invoked = false)
    (hfail : env.pipe_ok = false ∨ env.pthread_create_ok = false ∨
      env.signal_int_ok = false ∨ env.signal_term_ok = false ∨ env.signal_hup_ok = false) :
    (dtr_daemon_after_detach env s).1 = false ∧
    (dtr_daemon_after_detach env s).2.error.isSome = true ∧
    (dtr_daemon_after_detach env s).2.start_invoked = false ∧
    (dtr_daemon_after_detach env s).2.pipe_open = false ∧
    (dtr_daemon_after_detach env s).2.thread_running = false ∧
    (env.pipe_ok = true → env.pthread_create_ok = true →
      (dtr_daemon_after_detach env s).2.sentinel_sent = true ∧
      (dtr_daemon_after_detach env s).2.thread_joined = true) := by
  cases hp : env.pipe_ok <;> cases ht : env.pthread_create_ok <;>
    cases hi : env.signal_int_ok <;> cases hte : env.signal_term_ok <;>
    cases hh : env.signal_hup_ok <;>
    simp_all [dtr_daemon_after_detach, create_signal_handler_thread, create_signal_pipe,
      destroy_signal_pipe, destroy_signal_handler_thread, setup_signal_handler,
      set_system_error, signal_ok, SIGHUP, SIGINT, SIGTERM]

/-! ## Claim theorems -/

/-- C1: the claim says an identifier other than `SIGHUP`/`SIGINT`/`SIGTERM`
and the sentinel `0` triggers a failing defensive assertion that
terminates the process.  Evaluating the code at identifier `10`
(`SIGUSR1`): `assert("Unexpected signal")` asserts an always-true string
literal, so no abort occurs, no callback is invoked, and the read loop
silently continues to process later identifiers. -/
theorem c1_unexpected_signal_not_fatal :
    handle_signal 0 10 = { calls := [], aborted := false } ∧
    signal_handler_thread_main 0 [10, 15, 0] =
      { calls := [CbEvent.on_stop 0], aborted := false } := by
  decide

/-- C3: the dispatch thread maps `SIGHUP` to exactly one
`on_reconfigure(callback_arg)` invocation and `SIGINT`/`SIGTERM` to
exactly one `on_stop(callback_arg)` invocation, in each case continuing
the loop on the remaining input. -/
theorem c3_dispatch_maps_signals (ctx : Nat) (rest : List Int) :
    signal_handler_thread_main ctx (SIGHUP :: rest) =
      { calls := CbEvent.on_reconfigure ctx :: (signal_handler_thread_main ctx rest).calls
        aborted := (signal_handler_thread_main ctx rest).aborted } ∧
    signal_handler_thread_main ctx (SIGINT :: rest) =
      { calls := CbEvent.on_stop ctx :: (signal_handler_thread_main ctx rest).calls
        aborted := (signal_handler_thread_main ctx rest).aborted } ∧
    signal_handler_thread_main ctx (SIGTERM :: rest) =
      { calls := CbEvent.on_stop ctx :: (signal_handler_thread_main ctx rest).calls
        aborted := (signal_handler_thread_main ctx rest).aborted } := by
  refine ⟨?_, ?_, ?_⟩ <;>
    simp [signal_handler_thread_main, handle_signal, SIGHUP, SIGINT, SIGTERM]

/-- C4: reading the sentinel `0` exits the dispatch loop immediately,
invoking no callback, whatever identifiers may follow. -/
theorem c4_sentinel_exits_loop (ctx : Nat) (rest : List Int) :
    signal_handler_thread_main ctx (0 :: rest) = { calls := [], aborted := false } := by
  simp [signal_handler_thread_main]

/-- C7: if the `write` into the pipe's write end fails, the signal
handler aborts the process; the identifier is never silently dropped by
a normal return. -/
theorem c7_write_failure_aborts (sig : Int) (env : WriteEnv)
    (h : env.write_ok = false) :
    (send_signal_to_pipe sig env).aborted = true ∧
    (send_signal_to_pipe sig env).pushed = none := by
  simp [send_signal_to_pipe, h]

theorem c7_write_failure_aborts_witness :
    (send_signal_to_pipe 15 { errno_before := 4, write_ok := false, errno_after_write := 9 }).aborted = true ∧
    (send_signal_to_pipe 15 { errno_before := 4, write_ok := false, errno_after_write := 9 }).pushed = none :=
  c7_write_failure_aborts 15 { errno_before := 4, write_ok := false, errno_after_write := 9 } rfl

/-- C8: on every normally-returning invocation (successful write), the
ambient `errno` after the handler equals its value before the handler
ran, whatever value the `write` call itself left in `errno`. -/
theorem c8_errno_restored (sig : Int) (env : WriteEnv)
    (h : env.write_ok = true) :
    (send_signal_to_pipe sig env).aborted = false ∧
    (send_signal_to_pipe sig env).errno_after = env.errno_before := by
  simp [send_signal_to_pipe, h]

theorem c8_errno_restored_witness :
    (send_signal_to_pipe 1 { errno_before := 4, write_ok := true, errno_after_write := 99 }).aborted = false ∧
    (send_signal_to_pipe 1 { errno_before := 4, write_ok := true, errno_after_write := 99 }).errno_after = 4 :=
  c8_errno_restored 1 { errno_before := 4, write_ok := true, errno_after_write := 99 } rfl

/-- C2 counterexample: with an invocation already active (the globals
already record callback table `1` / context `11`), a second call of
`dtr_daemon` with table `2` / context `22` is not detected at entry: it
silently overwrites the process-wide callback/context state and runs to
successful completion. -/
theorem c2_no_entry_guard_counterexample :
    (dtr_daemon envAllOk 2 22 true
      { cleanState with callbacks := some 1, callback_arg := some 11 }).2.callbacks = some 2 ∧
    (dtr_daemon envAllOk 2 22 true
      { cleanState with callbacks := some 1, callback_arg := some 11 }).2.callback_arg = some 22 ∧
    (dtr_daemon envAllOk 2 22 true
      { cleanState with callbacks := some 1, callback_arg := some 11 }).1 = true := by
  decide

/-- C2 (amended): `dtr_daemon` checks no guard at entry; on every path it
unconditionally records the given callback table and context into the
process-wide state, overwriting whatever was stored there before. -/
theorem c2_unconditional_overwrite (env : Env) (cb cb_arg : Nat) (fg : Bool)
    (s0 : DaemonState) :
    (dtr_daemon env cb cb_arg fg s0).2.callbacks = some cb ∧
    (dtr_daemon env cb cb_arg fg s0).2.callback_arg = some cb_arg := by
  have hframe : ∀ s : DaemonState,
      (dtr_daemon_after_detach env s).2.callbacks = s.callbacks ∧
      (dtr_daemon_after_detach env s).2.callback_arg = s.callback_arg := by
    intro s
    exact ⟨(after_detach_frame env s).2.2.2.1, (after_detach_frame env s).2.2.2.2⟩
  cases fg <;> cases hd : env.have_daemon <;> cases hdo : env.daemon_ok <;>
    cases hf : env.fork_result <;> cases hs : env.setsid_ok <;>
    cases ho : env.open_null_ok <;>
    simp [dtr_daemon, hd, hdo, hf, hs, ho, set_system_error, hframe]

/-- C5 counterexample: with `signal(SIGTERM, ...)` failing after
`signal(SIGINT, ...)` has succeeded, `dtr_daemon` returns `false` but
leaves the already-installed `SIGINT` relay handler installed — the
claim's "any already-installed signal handlers" are not rolled back. -/
theorem c5_handlers_not_rolled_back_counterexample :
    (dtr_daemon envSigTermFail 1 1 true cleanState).1 = false ∧
    (dtr_daemon envSigTermFail 1 1 true cleanState).2.handlers = [SIGINT] := by
  decide

/-- C5 (amended): on every failure during channel creation, dispatch
thread creation or signal-handler registration — whether reached in
foreground mode, after a successful native `daemon()`, or in the
manually daemonized child — `dtr_daemon` returns `false` with a
populated error, never invokes `on_start`, and rolls back the Signal
Channel and Dispatch Thread it created (pipe closed; sentinel sent and
thread joined whenever the thread was created).  Already-installed
signal handlers are left installed. -/
theorem c5_setup_failure_rollback (env : Env) (cb cb_arg : Nat) (fg : Bool)
    (hreach : fg = true ∨ (env.have_daemon = true ∧ env.daemon_ok = true) ∨
      (env.have_daemon = false ∧ env.fork_result = ForkResult.child ∧ env.setsid_ok = true))
    (hfail : env.pipe_ok = false ∨ env.pthread_create_ok = false ∨
      env.signal_int_ok = false ∨ env.signal_term_ok = false ∨ env.signal_hup_ok = false) :
    (dtr_daemon env cb cb_arg fg cleanState).1 = false ∧
    (dtr_daemon env cb cb_arg fg cleanState).2.error.isSome = true ∧
    (dtr_daemon env cb cb_arg fg cleanState).2.start_invoked = false ∧
    (dtr_daemon env cb cb_arg fg cleanState).2.pipe_open = false ∧
    (dtr_daemon env cb cb_arg fg cleanState).2.thread_running = false ∧
    (env.pipe_ok = true → env.pthread_create_ok = true →
      (dtr_daemon env cb cb_arg fg cleanState).2.sentinel_sent = true ∧
      (dtr_daemon env cb cb_arg fg cleanState).2.thread_joined = true) := by
  have key : ∀ s : DaemonState, s.pipe_open = false → s.thread_running = false →
      s.start_invoked = false →
      (dtr_daemon_after_detach env s).1 = false ∧
      (dtr_daemon_after_detach env s).2.error.isSome = true ∧
      (dtr_daemon_after_detach env s).2.start_invoked = false ∧
      (dtr_daemon_after_detach env s).2.pipe_open = false ∧
      (dtr_daemon_after_detach env s).2.thread_running = false ∧
      (env.pipe_ok = true → env.pthread_create_ok = true →
        (dtr_daemon_after_detach env s).2.sentinel_sent = true ∧
        (dtr_daemon_after_detach env s).2.thread_joined = true) := by
    intro s h1 h2 h3
    exact after_detach_failure env s h1 h2 h3 hfail
  rcases hreach with hfg | ⟨hd, hdo⟩ | ⟨hd, hf, hs⟩
  · subst hfg
    simpa [dtr_daemon] using key _ rfl rfl rfl
  · cases fg
    · simpa [dtr_daemon, hd, hdo] using key _ rfl rfl rfl
    · simpa [dtr_daemon] using key _ rfl rfl rfl
  · cases fg
    · cases ho : env.open_null_ok <;>
        simpa [dtr_daemon, hd, hf, hs, ho] using key _ rfl rfl rfl
    · simpa [dtr_daemon] using key _ rfl rfl rfl

theorem c5_setup_failure_rollback_witness :
    (dtr_daemon envPipeFail 1 1 true cleanState).1 = false ∧
    (dtr_daemon envPipeFail 1 1 true cleanState).2.error.isSome = true ∧
    (dtr_daemon envPipeFail 1 1 true cleanState).2.start_invoked = false ∧
    (dtr_daemon envPipeFail 1 1 true cleanState).2.pipe_open = false ∧
    (dtr_daemon envPipeFail 1 1 true cleanState).2.thread_running = false ∧
    (envPipeFail.pipe_ok = true → envPipeFail.pthread_create_ok = true →
      (dtr_daemon envPipeFail 1 1 true cleanState).2.sentinel_sent = true ∧
      (dtr_daemon envPipeFail 1 1 true cleanState).2.thread_joined = true) :=
  c5_setup_failure_rollback envPipeFail 1 1 true (Or.inl rfl) (Or.inl (by decide))

/-- C6: on the manual-fork fallback path in non-foreground mode, the
parent's invocation returns `true` with exit code `0` and performs no
further step: other than recording the callback globals, the state is
exactly what it was — no pipe, no thread, no handlers, no daemonization
effect, and `on_start` is never invoked. -/
theorem c6_parent_returns_immediately (env : Env) (cb cb_arg : Nat)
    (s0 : DaemonState) (hd : env.have_daemon = false)
    (hf : env.fork_result = ForkResult.parent) :
    dtr_daemon env cb cb_arg false s0 =
      (true, { s0 with callbacks := some cb, callback_arg := some cb_arg, exit_code := 0 }) := by
  simp [dtr_daemon, hd, hf]

theorem c6_parent_returns_immediately_witness :
    dtr_daemon envParent 1 2 false cleanState =
      (true, { cleanState with callbacks := some 1, callback_arg := some 2, exit_code := 0 }) :=
  c6_parent_returns_immediately envParent 1 2 cleanState rfl rfl

/-- C9: in the manually daemonized child (fork lands in the child,
`setsid` succeeds, the null device opens), the process starts a new
session, rebinds stdin/stdout/stderr to the null device, and the current
working directory is left exactly as the caller had it (the `chdir`
block is commented out). -/
theorem c9_child_daemonization (env : Env) (cb cb_arg : Nat) (s0 : DaemonState)
    (hd : env.have_daemon = false) (hf : env.fork_result = ForkResult.child)
    (hs : env.setsid_ok = true) (ho : env.open_null_ok = true) :
    (dtr_daemon env cb cb_arg false s0).2.new_session = true ∧
    (dtr_daemon env cb cb_arg false s0).2.stdio_null = true ∧
    (dtr_daemon env cb cb_arg false s0).2.cwd_changed = s0.cwd_changed := by
  have hframe := after_detach_frame env
  simp only [dtr_daemon, hd, hf, hs, ho]
  simp [hd, hf, hs, ho, (hframe _).1, (hframe _).2.1, (hframe _).2.2.1]

theorem c9_child_daemonization_witness :
    (dtr_daemon envAllOk 1 2 false cleanState).2.new_session = true ∧
    (dtr_daemon envAllOk 1 2 false cleanState).2.stdio_null = true ∧
    (dtr_daemon envAllOk 1 2 false cleanState).2.cwd_changed = cleanState.cwd_changed :=
  c9_child_daemonization envAllOk 1 2 cleanState rfl rfl rfl rfl

/-- C10: `dtr_daemon` stores `1` into `*exit_code` at entry, so every
path that returns `false` leaves the caller's exit code equal to `1`;
the only paths storing a different value are the parent's fork path
(which stores `0`) and a completed `on_start` (which stores its return
value). -/
theorem c10_exit_code_discipline (env : Env) (cb cb_arg : Nat) (fg : Bool)
    (s0 : DaemonState) :
    (dtr_daemon env cb cb_arg fg s0).2.exit_code =
      (if (dtr_daemon env cb cb_arg fg s0).1 = false then 1
       else if fg = false ∧ env.have_daemon = false ∧ env.fork_result = ForkResult.parent then 0
       else env.start_ret) := by
  have hswap : ∀ s : DaemonState,
      (dtr_daemon_after_detach env s).2.exit_code =
        (if (dtr_daemon_after_detach env s).1 = false then s.exit_code else env.start_ret) := by
    intro s
    rw [after_detach_exit_code env s]
    rcases h : (dtr_daemon_after_detach env s).1 <;> simp [h]
  cases fg <;> cases hd : env.have_daemon <;> cases hdo : env.daemon_ok <;>
    cases hf : env.fork_result <;> cases hs : env.setsid_ok <;>
    cases ho : env.open_null_ok <;>
    simp_all [dtr_daemon, set_system_error]
